import Mathlib

/-!
Verification of the browser-side views of the Employment-Task-Management-System
repository (Dashboard.js, TaskList, UserManagement, Navigation, login.js).

The client-side data model and the pure derivations the views perform
(completion rate, task filtering, recent-task ordering, overdue flag,
role-gated rendering, quick status actions, delete confirmation, user
statistics, error-toast reduction) are embedded as executable Lean
definitions, translated directly from the JavaScript source.  Strings are
modelled as Lean `String`, JS numbers holding counts as `Nat`, and
timestamps as `Int` (milliseconds since the epoch); JS `null`/`undefined`
fields are `Option`s.
-/

namespace ETMS

/-- Task status vocabulary, as offered by the status `Select` controls. -/
inductive Status where
  | pending
  | in_progress
  | completed
  | cancelled
deriving DecidableEq, Repr

/-- Task priority vocabulary, as offered by the priority `Select` controls. -/
inductive Priority where
  | low
  | medium
  | high
  | urgent
deriving DecidableEq, Repr

/-- User role vocabulary (admin / manager / employee). -/
inductive Role where
  | admin
  | manager
  | employee
deriving DecidableEq, Repr

/-- A task as consumed by the client. -/
structure Task where
  id : String
  title : String
  description : Option String
  status : Status
  priority : Priority
  assigned_to : Option String
  category : Option String
  due_date : Option Int
  created_at : Int
deriving DecidableEq, Repr

/-- A user as consumed by the client. -/
structure User where
  id : String
  email : String
  full_name : String
  role : Role
  department : Option String
  phone : Option String
  is_active : Option Bool
  created_at : Int
deriving DecidableEq, Repr

/-- The aggregate counters returned by `GET /dashboard/stats`. -/
structure DashboardStats where
  total_employees : Nat
  total_tasks : Nat
  completed_tasks : Nat
  pending_tasks : Nat
  in_progress_tasks : Nat
  overdue_tasks : Nat
deriving DecidableEq, Repr

/-! ## Dashboard: completion rate (Dashboard.js lines 101-103)

`const completionRate = stats?.total_tasks > 0
   ? Math.round((stats.completed_tasks / stats.total_tasks) * 100) : 0;`

`Math.round` rounds half toward positive infinity, which is Mathlib's
`round` (`round x = ⌊x + 1/2⌋`); the division is modelled exactly in `ℚ`. -/

/-- The dashboard's displayed completion rate.  `none` models `stats`
still being `null` (the optional-chaining guard makes the rate 0). -/
def completionRate (stats : Option DashboardStats) : ℤ :=
  match stats with
  | some s =>
      if 0 < s.total_tasks then
        round ((s.completed_tasks : ℚ) / (s.total_tasks : ℚ) * 100)
      else 0
  | none => 0

/-! ## TaskList: overdue predicate (TaskList, `isOverdue`)

`const isOverdue = (dueDate) => { if (!dueDate) return false;
   return new Date(dueDate) < new Date(); };` -/

/-- The client-side overdue predicate; `now` is the current time. -/
def isOverdue (dueDate : Option Int) (now : Int) : Bool :=
  match dueDate with
  | none => false
  | some d => d < now

/-! ## TaskList: filtering (TaskList, `filteredTasks`) -/

/-- Lowercases a string character-wise, modelling `String.toLowerCase`. -/
def lowerStr (s : String) : String :=
  ⟨s.data.map Char.toLower⟩

/-- `needle` occurs at the start of `hay` (character lists). -/
def startsWithList : List Char → List Char → Bool
  | [], _ => true
  | _ :: _, [] => false
  | a :: as, b :: bs => a == b && startsWithList as bs

/-- `needle` occurs contiguously somewhere in `hay` (character lists);
models JavaScript `String.prototype.includes`. -/
def containsList (hay needle : List Char) : Bool :=
  match hay with
  | [] => needle.isEmpty
  | _ :: t => startsWithList needle hay || containsList t needle

/-- `hay.includes(needle)` on strings. -/
def strIncludes (hay needle : String) : Bool :=
  containsList hay.data needle.data

/-- Status filter control: `'all'` or one of the four statuses. -/
inductive StatusFilter where
  | all
  | only (s : Status)
deriving DecidableEq, Repr

/-- Priority filter control: `'all'` or one of the four priorities. -/
inductive PriorityFilter where
  | all
  | only (p : Priority)
deriving DecidableEq, Repr

/-- `matchesSearch` from the filter body:
`task.title.toLowerCase().includes(searchTerm.toLowerCase()) ||
 task.description?.toLowerCase().includes(searchTerm.toLowerCase())`
(the optional chain makes a missing description contribute `false`). -/
def matchesSearch (searchTerm : String) (task : Task) : Bool :=
  strIncludes (lowerStr task.title) (lowerStr searchTerm) ||
    (match task.description with
     | none => false
     | some d => strIncludes (lowerStr d) (lowerStr searchTerm))

/-- `matchesStatus`: `statusFilter === 'all' || task.status === statusFilter`. -/
def matchesStatus (statusFilter : StatusFilter) (task : Task) : Bool :=
  match statusFilter with
  | .all => true
  | .only s => task.status == s

/-- `matchesPriority`: `priorityFilter === 'all' || task.priority === priorityFilter`. -/
def matchesPriority (priorityFilter : PriorityFilter) (task : Task) : Bool :=
  match priorityFilter with
  | .all => true
  | .only p => task.priority == p

/-- `filteredTasks = tasks.filter(task => matchesSearch && matchesStatus
&& matchesPriority)` (TaskList, the "Filter tasks" block). -/
def filteredTasks (searchTerm : String) (statusFilter : StatusFilter)
    (priorityFilter : PriorityFilter) (tasks : List Task) : List Task :=
  tasks.filter fun task =>
    matchesSearch searchTerm task && matchesStatus statusFilter task &&
      matchesPriority priorityFilter task

/-! Specification-side predicates for the filter, written from the spec's
words ("case-insensitive substring match of the search term on title or
description, exact status match, exact priority match, 'all' is a no-op"),
to be compared with the code-derived `filteredTasks`. -/

/-- Spec reading of the search predicate. -/
def SearchMatches (searchTerm : String) (task : Task) : Prop :=
  strIncludes (lowerStr task.title) (lowerStr searchTerm) = true ∨
    ∃ d, task.description = some d ∧
      strIncludes (lowerStr d) (lowerStr searchTerm) = true

/-- Spec reading of the status predicate: exact match, `'all'` a no-op. -/
def StatusMatches (statusFilter : StatusFilter) (task : Task) : Prop :=
  match statusFilter with
  | .all => True
  | .only s => task.status = s

/-- Spec reading of the priority predicate: exact match, `'all'` a no-op. -/
def PriorityMatches (priorityFilter : PriorityFilter) (task : Task) : Prop :=
  match priorityFilter with
  | .all => True
  | .only p => task.priority = p

/-! ## Dashboard: recent tasks (Dashboard.js lines 43-46)

`const sortedTasks = tasksResponse.data
   .sort((a, b) => new Date(b.created_at) - new Date(a.created_at))
   .slice(0, 5);`

The comparator orders by `created_at` descending; `Array.prototype.sort`
is stable, modelled by the stable `List.insertionSort`. -/

/-- The comparator's order: `a` precedes `b` when `b.created_at ≤ a.created_at`. -/
def recentRel (a b : Task) : Prop :=
  b.created_at ≤ a.created_at

instance : DecidableRel recentRel := fun a b =>
  inferInstanceAs (Decidable (b.created_at ≤ a.created_at))

instance : IsTotal Task recentRel :=
  ⟨fun a b => le_total b.created_at a.created_at⟩

instance : IsTrans Task recentRel :=
  ⟨fun _ _ _ h1 h2 => le_trans h2 h1⟩

/-- The dashboard's recent-tasks derivation: sort descending by
`created_at`, take the first 5. -/
def recentTasks (tasks : List Task) : List Task :=
  (tasks.insertionSort recentRel).take 5

/-! ## Role-gated affordances

Render conditions lifted from TaskList, Dashboard, Navigation and
UserManagement. -/

/-- "Create Task" button (TaskList header and empty state):
`user?.role === 'admin' || user?.role === 'manager'`. -/
def showCreateTask (role : Role) : Bool :=
  role == .admin || role == .manager

/-- Per-card dropdown trigger (TaskList):
`user?.role !== 'employee' || task.assigned_to === user.id`. -/
def showTaskMenu (role : Role) (assignedTo : Option String) (uid : String) : Bool :=
  role != .employee || assignedTo == some uid

/-- "Delete" item inside the dropdown: `user?.role !== 'employee'`, and it
can only render when the dropdown itself renders. -/
def showDeleteTask (role : Role) (assignedTo : Option String) (uid : String) : Bool :=
  showTaskMenu role assignedTo uid && role != .employee

/-- "Add User" button (UserManagement): `currentUser?.role === 'admin'`. -/
def showAddUser (role : Role) : Bool :=
  role == .admin

/-- "Manage Users" quick action (Dashboard): `user?.role !== 'employee'`. -/
def showManageUsers (role : Role) : Bool :=
  role != .employee

/-- A navigation entry: its `to` route and its allowed roles (`to` is a
Lean keyword, so the field is called `route`). -/
structure NavItem where
  route : String
  allowed : List Role
deriving DecidableEq, Repr

/-- The `navItems` array from Navigation. -/
def navItems : List NavItem :=
  [ ⟨"/dashboard", [.admin, .manager, .employee]⟩,
    ⟨"/tasks", [.admin, .manager, .employee]⟩,
    ⟨"/users", [.admin, .manager]⟩ ]

/-- `navItems.filter(item => item.allowed.includes(user?.role))`. -/
def filteredNavItems (role : Role) : List NavItem :=
  navItems.filter fun item => item.allowed.contains role

/-- Edit action on a row of the user list (UserManagement):
`currentUser?.role === 'admin' && currentUser.id !== user.id`. -/
def showEditUserAction (currentRole : Role) (currentId rowId : String) : Bool :=
  currentRole == .admin && currentId != rowId

/-! ## Quick status actions (TaskList, "Quick status update" block)

Rendered when `task.assigned_to === user.id && task.status !== 'completed'`;
inside, `pending` offers Start (→ `in_progress`) and `in_progress` offers
Complete (→ `completed`); each click calls
`handleUpdateTask(task.id, { status: target })`. -/

/-- The list of target statuses the quick-action buttons can issue for
this task and the current user `uid`. -/
def quickActions (task : Task) (uid : String) : List Status :=
  if task.assigned_to == some uid && task.status != Status.completed then
    (if task.status == Status.pending then [Status.in_progress] else []) ++
      (if task.status == Status.in_progress then [Status.completed] else [])
  else []

/-! ## Delete flow (TaskList, `handleDeleteTask`)

`if (!window.confirm(...)) return;` then `axios.delete`, and on success
`setTasks(tasks.filter(task => task.id !== taskId))`; a failed request
leaves state unchanged (only a toast fires). -/

/-- Outcome of `handleDeleteTask`: the DELETE requests issued and the
resulting local task list. `confirmed` is the user's answer to the
confirmation prompt, `success` whether the DELETE request succeeds. -/
def handleDeleteTask (confirmed success : Bool) (tasks : List Task)
    (taskId : String) : List String × List Task :=
  if !confirmed then ([], tasks)
  else if success then ([taskId], tasks.filter fun task => task.id != taskId)
  else ([taskId], tasks)

/-! ## User statistics (UserManagement, `userStats`) -/

/-- The derived counters shown on the user-management stat cards. -/
structure UserStatsCounters where
  total : Nat
  admins : Nat
  managers : Nat
  employees : Nat
  active : Nat
deriving DecidableEq, Repr

/-- `userStats = { total: users.length, admins: ..., managers: ...,
employees: ..., active: users.filter(u => u.is_active !== false).length }`. -/
def userStats (users : List User) : UserStatsCounters :=
  { total := users.length
    admins := (users.filter fun u => u.role == .admin).length
    managers := (users.filter fun u => u.role == .manager).length
    employees := (users.filter fun u => u.role == .employee).length
    active := (users.filter fun u => u.is_active != some false).length }

/-! ## Error-toast reduction (all `catch` blocks of the three views) -/

/-- An API failure as seen by a `catch` block: the optional
`error.response?.data?.detail` payload. -/
structure ApiError where
  detail : Option String
deriving DecidableEq, Repr

/-- The axios call sites of the Dashboard, TaskList and UserManagement
views. -/
inductive CallSite where
  | dashboardFetchData
  | taskListFetchTasks
  | taskListFetchUsers
  | createTask
  | updateTask
  | deleteTask
  | userMgmtFetchUsers
  | createUser
  | updateUser
deriving DecidableEq, Repr

/-- The toast each call site's `catch` block produces on failure (`none`
when the block only logs to the console).  Translated handler by handler:
only UserManagement's `handleCreateUser` consults the error payload
(`error.response?.data?.detail || 'Failed to create user'`), and
TaskList's `fetchUsers` shows no toast at all. -/
def toastOnFailure : CallSite → ApiError → Option String
  | .dashboardFetchData, _ => some "Failed to load dashboard data"
  | .taskListFetchTasks, _ => some "Failed to load tasks"
  | .taskListFetchUsers, _ => none
  | .createTask, _ => some "Failed to create task"
  | .updateTask, _ => some "Failed to update task"
  | .deleteTask, _ => some "Failed to delete task"
  | .userMgmtFetchUsers, _ => some "Failed to load users"
  | .createUser, e => some (e.detail.getD "Failed to create user")
  | .updateUser, _ => some "Failed to update user"


/-! ## Helper lemmas -/

/-- The Boolean search match agrees with its specification reading. -/
theorem matchesSearch_iff (searchTerm : String) (task : Task) :
    matchesSearch searchTerm task = true ↔ SearchMatches searchTerm task := by
  unfold matchesSearch SearchMatches
  cases h : task.description with
  | none => simp [h]
  | some d => simp [h]

/-- The Boolean status match agrees with its specification reading. -/
theorem matchesStatus_iff (statusFilter : StatusFilter) (task : Task) :
    matchesStatus statusFilter task = true ↔ StatusMatches statusFilter task := by
  cases statusFilter <;> simp [matchesStatus, StatusMatches]

/-- The Boolean priority match agrees with its specification reading. -/
theorem matchesPriority_iff (priorityFilter : PriorityFilter) (task : Task) :
    matchesPriority priorityFilter task = true ↔
      PriorityMatches priorityFilter task := by
  cases priorityFilter <;> simp [matchesPriority, PriorityMatches]

/-! ## Claims -/

/-- C1: for every stats object, the dashboard's displayed completion rate
equals `round (100 * completed_tasks / total_tasks)` when
`total_tasks > 0` and `0` when `total_tasks = 0`; in particular
`{total := 0} ↦ 0`, `{total := 10, completed := 3} ↦ 30`, and
`{total := 3, completed := 1} ↦ 33`. -/
theorem claim_C1_completionRate (s : DashboardStats) :
    (0 < s.total_tasks →
      completionRate (some s) =
        round ((100 * s.completed_tasks : ℚ) / (s.total_tasks : ℚ))) ∧
    (s.total_tasks = 0 → completionRate (some s) = 0) ∧
    completionRate (some ⟨0, 0, 0, 0, 0, 0⟩) = 0 ∧
    completionRate (some ⟨0, 10, 3, 0, 0, 0⟩) = 30 ∧
    completionRate (some ⟨0, 3, 1, 0, 0, 0⟩) = 33 := by
  refine ⟨fun h => ?_, fun h => ?_, ?_, ?_, ?_⟩
  · rw [completionRate, if_pos h]
    congr 1
    ring
  · simp [completionRate, h]
  · decide
  · norm_num [completionRate, round_eq]
  · norm_num [completionRate, round_eq]

/-- Witness for C1 at `total_tasks = 10`, `completed_tasks = 3` and at
`total_tasks = 0`. -/
theorem claim_C1_completionRate_witness :
    completionRate (some ⟨0, 10, 3, 0, 0, 0⟩) =
      round ((100 * 3 : ℚ) / (10 : ℚ)) ∧
    completionRate (some ⟨0, 0, 7, 0, 0, 0⟩) = 0 :=
  ⟨by
    have h := (claim_C1_completionRate ⟨0, 10, 3, 0, 0, 0⟩).1 (by decide)
    simpa using h,
   (claim_C1_completionRate ⟨0, 0, 7, 0, 0, 0⟩).2.1 rfl⟩

/-- C2: the task list's filtered result is exactly the tasks satisfying
the conjunction of the three independent predicates (case-insensitive
substring search on title or description, exact status, exact priority),
`'all'` being a no-op; filtering with `statusFilter = all` equals applying
no status filter at all. -/
theorem claim_C2_filteredTasks (searchTerm : String) (statusFilter : StatusFilter)
    (priorityFilter : PriorityFilter) (tasks : List Task) :
    (∀ t : Task,
      t ∈ filteredTasks searchTerm statusFilter priorityFilter tasks ↔
        t ∈ tasks ∧ SearchMatches searchTerm t ∧
          StatusMatches statusFilter t ∧ PriorityMatches priorityFilter t) ∧
    filteredTasks searchTerm StatusFilter.all priorityFilter tasks =
      tasks.filter (fun t =>
        matchesSearch searchTerm t && matchesPriority priorityFilter t) := by
  constructor
  · intro t
    rw [filteredTasks, List.mem_filter]
    rw [Bool.and_eq_true, Bool.and_eq_true]
    rw [matchesSearch_iff, matchesStatus_iff, matchesPriority_iff]
    tauto
  · rw [filteredTasks]
    simp only [matchesStatus, Bool.and_true]

/-- C3: for every task with a due date and every current time, the
client-side overdue predicate holds exactly when the due date is strictly
before the current time, and it is unchanged by replacing the task's
status (so a completed or cancelled task with a past due date is still
marked overdue). -/
theorem claim_C3_isOverdue (t : Task) (d now : Int) (h : t.due_date = some d) :
    (isOverdue t.due_date now = true ↔ d < now) ∧
    ∀ s : Status,
      isOverdue ({ t with status := s } : Task).due_date now =
        isOverdue t.due_date now := by
  refine ⟨?_, fun s => rfl⟩
  rw [h]
  simp [isOverdue]

/-- Witness for C3: a `completed` task due at time 100 is overdue at
time 200. -/
theorem claim_C3_isOverdue_witness :
    isOverdue (Task.mk "t1" "Report" none Status.completed Priority.high
        none none (some 100) 0).due_date 200 = true ↔ (100 : Int) < 200 :=
  (claim_C3_isOverdue
    (Task.mk "t1" "Report" none Status.completed Priority.high
      none none (some 100) 0) 100 200 rfl).1


/-- C4: an employee-role session never renders the "Create Task",
"Delete Task", "Add User" or "Manage Users" affordances (including via the
navigation's `/users` entry), while an admin session renders all of them;
in the user list's actions menu the admin sees the edit action for every
entry except their own. -/
theorem claim_C4_roleGating (assignedTo : Option String) (uid rowId adminId : String) :
    showCreateTask Role.employee = false ∧
    showDeleteTask Role.employee assignedTo uid = false ∧
    showAddUser Role.employee = false ∧
    showManageUsers Role.employee = false ∧
    (∀ i ∈ filteredNavItems Role.employee, i.route ≠ "/users") ∧
    showCreateTask Role.admin = true ∧
    showDeleteTask Role.admin assignedTo uid = true ∧
    showAddUser Role.admin = true ∧
    showManageUsers Role.admin = true ∧
    (∃ i ∈ filteredNavItems Role.admin, i.route = "/users") ∧
    showEditUserAction Role.admin adminId adminId = false ∧
    (rowId ≠ adminId → showEditUserAction Role.admin adminId rowId = true) := by
  refine ⟨rfl, ?_, rfl, rfl, by decide, rfl, ?_, rfl, rfl, by decide, ?_, ?_⟩
  · simp [showDeleteTask, showTaskMenu]
  · simp [showDeleteTask, showTaskMenu]
  · simp [showEditUserAction]
  · intro h
    simp [showEditUserAction, bne_iff_ne]
    exact Ne.symm h

/-- Witness for C4 at a concrete admin viewing another user's row. -/
theorem claim_C4_roleGating_witness :
    showEditUserAction Role.admin "u1" "u2" = true :=
  (claim_C4_roleGating none "u1" "u2" "u1").2.2.2.2.2.2.2.2.2.2.2 (by decide)

/-- C5: a quick-action button only ever issues the transitions
`pending → in_progress` and `in_progress → completed`, it is rendered
only when the task's `assigned_to` equals the current user's id, and no
quick-action is offered for a completed task or to a non-assignee. -/
theorem claim_C5_quickActions (t : Task) (uid : String) :
    (∀ s ∈ quickActions t uid,
      t.assigned_to = some uid ∧
        ((t.status = Status.pending ∧ s = Status.in_progress) ∨
          (t.status = Status.in_progress ∧ s = Status.completed))) ∧
    (t.status = Status.completed → quickActions t uid = []) ∧
    (t.assigned_to ≠ some uid → quickActions t uid = []) := by
  refine ⟨?_, ?_, ?_⟩
  · intro s hs
    by_cases hau : t.assigned_to = some uid
    · cases ht : t.status <;>
        simp [quickActions, hau, ht] at hs <;> simp [hau, hs, ht]
    · simp [quickActions, hau] at hs
  · intro ht
    simp [quickActions, ht]
  · intro hau
    simp [quickActions, hau]

/-- Witness for C5: the only quick action on a pending task offered to its
assignee is `in_progress`, and a completed task offers none. -/
theorem claim_C5_quickActions_witness :
    (Task.mk "t1" "Report" none Status.pending Priority.low
        (some "u1") none none 0).assigned_to = some "u1" ∧
    quickActions (Task.mk "t2" "Done" none Status.completed Priority.low
        (some "u1") none none 0) "u1" = [] := by
  constructor
  · exact ((claim_C5_quickActions
      (Task.mk "t1" "Report" none Status.pending Priority.low
        (some "u1") none none 0) "u1").1 Status.in_progress (by decide)).1
  · exact (claim_C5_quickActions
      (Task.mk "t2" "Done" none Status.completed Priority.low
        (some "u1") none none 0) "u1").2.1 rfl

/-- C6: without the user confirming the prompt, `handleDeleteTask` issues
no DELETE request and leaves the local task list unchanged; the item is
removed from local state exactly when the user confirmed and the request
succeeded (a failed request also leaves the list unchanged). -/
theorem claim_C6_deleteConfirmation (confirmed success : Bool)
    (tasks : List Task) (taskId : String) :
    (confirmed = false →
      handleDeleteTask confirmed success tasks taskId = ([], tasks)) ∧
    (confirmed = true → success = true →
      handleDeleteTask confirmed success tasks taskId =
        ([taskId], tasks.filter fun task => task.id != taskId)) ∧
    (¬(confirmed = true ∧ success = true) →
      (handleDeleteTask confirmed success tasks taskId).2 = tasks) := by
  cases confirmed <;> cases success <;>
    simp [handleDeleteTask]

/-- Witness for C6: an unconfirmed delete of a one-element list issues no
request and keeps the element. -/
theorem claim_C6_deleteConfirmation_witness :
    handleDeleteTask false true
      [Task.mk "t1" "Report" none Status.pending Priority.low
        none none none 0] "t1" =
      ([], [Task.mk "t1" "Report" none Status.pending Priority.low
        none none none 0]) :=
  (claim_C6_deleteConfirmation false true
    [Task.mk "t1" "Report" none Status.pending Priority.low
      none none none 0] "t1").1 rfl

/-- C7: the dashboard's recent-tasks derivation returns at most 5 items,
sorted by `created_at` descending, and is idempotent. -/
theorem claim_C7_recentTasks (tasks : List Task) :
    (recentTasks tasks).length ≤ 5 ∧
    List.Sorted recentRel (recentTasks tasks) ∧
    recentTasks (recentTasks tasks) = recentTasks tasks := by
  have hsorted : List.Sorted recentRel (tasks.insertionSort recentRel) :=
    List.sorted_insertionSort recentRel tasks
  have htake : List.Sorted recentRel (recentTasks tasks) :=
    hsorted.sublist (List.take_sublist 5 _)
  refine ⟨?_, htake, ?_⟩
  · rw [recentTasks, List.length_take]
    exact min_le_left _ _
  · show (List.insertionSort recentRel (recentTasks tasks)).take 5 = _
    rw [List.Sorted.insertionSort_eq htake, recentTasks, List.take_take,
      min_self]


/-- C8 counterexample: it is not the case that every failing API call
produces a user-visible toast with the payload detail when available —
TaskList's `fetchUsers` produces no toast at all on failure, and
`handleCreateTask` shows its fixed generic message even when the API
error payload carries a detail text. -/
theorem claim_C8_counterexample :
    toastOnFailure CallSite.taskListFetchUsers ⟨some "Network Error"⟩ = none ∧
    toastOnFailure CallSite.createTask ⟨some "Title is required"⟩ =
      some "Failed to create task" :=
  ⟨rfl, rfl⟩

/-- C8 (amended): every failing API call of the three views except
TaskList's background `fetchUsers` produces a user-visible transient
notification; only UserManagement's `handleCreateUser` takes the detail
text from the API's error payload (falling back to a generic message),
and every other call site shows a fixed generic message independent of
the payload. -/
theorem claim_C8_errorToasts (site : CallSite) (e : ApiError) :
    (site ≠ CallSite.taskListFetchUsers →
      ∃ msg, toastOnFailure site e = some msg) ∧
    toastOnFailure CallSite.taskListFetchUsers e = none ∧
    (∀ d, toastOnFailure CallSite.createUser ⟨some d⟩ = some d) ∧
    toastOnFailure CallSite.createUser ⟨none⟩ =
      some "Failed to create user" ∧
    (site ≠ CallSite.createUser →
      toastOnFailure site e = toastOnFailure site ⟨none⟩) := by
  cases site <;> cases e <;>
    simp [toastOnFailure, Option.getD]

/-- Witness for C8 (amended) at the task-creation call site with a
payload-carrying error. -/
theorem claim_C8_errorToasts_witness :
    (∃ msg, toastOnFailure CallSite.createTask ⟨some "boom"⟩ = some msg) ∧
    toastOnFailure CallSite.createTask ⟨some "boom"⟩ =
      toastOnFailure CallSite.createTask ⟨none⟩ :=
  ⟨(claim_C8_errorToasts CallSite.createTask ⟨some "boom"⟩).1 (by decide),
   (claim_C8_errorToasts CallSite.createTask ⟨some "boom"⟩).2.2.2.2
     (by decide)⟩

/-- C9: the user-management view's derived counters satisfy: `total` is
the collection's length, each per-role counter counts the users with
exactly that role, `active` counts the users whose `is_active` is not
explicitly `false`, and a user with `is_active` absent counts as
active. -/
theorem claim_C9_userStats (users : List User) :
    (userStats users).total = users.length ∧
    (userStats users).admins =
      users.countP (fun u => u.role == Role.admin) ∧
    (userStats users).managers =
      users.countP (fun u => u.role == Role.manager) ∧
    (userStats users).employees =
      users.countP (fun u => u.role == Role.employee) ∧
    (userStats users).active =
      users.countP (fun u => u.is_active != some false) ∧
    (∀ u : User, u.is_active = none →
      (userStats (u :: users)).active = (userStats users).active + 1) := by
  refine ⟨rfl, ?_, ?_, ?_, ?_, ?_⟩
  · rw [userStats, List.countP_eq_length_filter]
  · rw [userStats, List.countP_eq_length_filter]
  · rw [userStats, List.countP_eq_length_filter]
  · rw [userStats, List.countP_eq_length_filter]
  · intro u hu
    simp [userStats, List.filter_cons, hu]

/-- Witness for C9: a user with `is_active` absent raises the active
counter of the empty collection to 1. -/
theorem claim_C9_userStats_witness :
    (userStats [User.mk "u1" "e@x.com" "Eve" Role.employee
        none none none 0]).active = (userStats []).active + 1 :=
  (claim_C9_userStats []).2.2.2.2.2
    (User.mk "u1" "e@x.com" "Eve" Role.employee none none none 0) rfl

/-- C10: a task whose `due_date` is absent is never labelled overdue,
whatever the current time. -/
theorem claim_C10_noDueDate (t : Task) (now : Int) (h : t.due_date = none) :
    isOverdue t.due_date now = false := by
  rw [h]
  rfl

/-- Witness for C10 at a concrete task without a due date. -/
theorem claim_C10_noDueDate_witness :
    isOverdue (Task.mk "t9" "Memo" none Status.pending Priority.low
        none none none 0).due_date 12345 = false :=
  claim_C10_noDueDate
    (Task.mk "t9" "Memo" none Status.pending Priority.low none none none 0)
    12345 rfl

end ETMS
